import Mathlib

/-!
Verification development for the `claude-code-usage-monitor` repository.

The heart of the repository is `claude_usage_capture.sh`, a bash script that
drives the Claude CLI inside a detached tmux session and scrapes the `/usage`
screen into a JSON envelope, plus a small VS Code status-bar renderer
(`StatusBarManager`).  This file gives a shallow embedding of the script's
text-processing pipeline (grep / sed / xargs stages), its session-store
validity check, its boot-poll state machine, its top-level control flow
(as an event trace), its success-JSON assembly, and the TypeScript
`createProgressBar` function, and proves properties of those definitions.

Modelling conventions:
* a captured tmux screen is a `List String` of its lines;
* `grep PAT` on a multi-line variable is a per-line substring / alternation
  test (all patterns in the script are literal strings, possibly joined by
  `|` and `.*`, so no general regex engine is needed);
* bash integers are `Int` (`date +%s` arithmetic can go negative);
* the boot-poll and retry loops are embedded with their iteration counters
  as plain bounded recursion;
* the TypeScript number arithmetic of `createProgressBar` is embedded over
  `ℚ` with JavaScript `Math.round x = ⌊x + 1/2⌋`, and the exception thrown
  by `String.prototype.repeat` on a negative count is an `Option.none`.
-/

/-! ### Basic string searching (the `grep` fragment the script uses) -/

/-- Does the character list `pat` occur as a contiguous sublist of `s`?
This is the semantics of `grep` with a literal (regex-metacharacter-free
or BRE-literal) pattern applied to a single line. -/
def containsSub : List Char → List Char → Bool
  | pat, [] => pat.isEmpty
  | pat, c :: rest => pat.isPrefixOf (c :: rest) || containsSub pat rest

/-- Literal-substring test on strings: `strContains pat line` is true iff
`pat` occurs inside `line`. -/
def strContains (pat line : String) : Bool :=
  containsSub pat.data line.data

/-- Drop everything up to and including the first occurrence of `pat`;
`none` when `pat` does not occur.  Used to give semantics to the `.*`
joins inside the script's extended-regex alternatives (`A.*B` matches a
line iff `B` occurs at or after the end of the leftmost occurrence of
`A`). -/
def dropAfterFirst (pat : List Char) : List Char → Option (List Char)
  | [] => if pat.isEmpty then some [] else none
  | c :: rest =>
    if pat.isPrefixOf (c :: rest) then some ((c :: rest).drop pat.length)
    else dropAfterFirst pat rest

/-- `containsSeq [p1, p2, ...] s` is the semantics of the regex
`p1.*p2.*...` on the line `s` (each `pi` a literal). -/
def containsSeq : List (List Char) → List Char → Bool
  | [], _ => true
  | p :: ps, s =>
    match dropAfterFirst p s with
    | some rest => containsSeq ps rest
    | none => false

/-- Does any line of the captured screen contain the literal `pat`?
Semantics of `echo "$output" | grep -q "pat"`. -/
def screenHas (screen : List String) (pat : String) : Bool :=
  screen.any (fun l => strContains pat l)

/-! ### Screen patterns of `claude_usage_capture.sh` -/

/-- Trust-prompt pattern, line 262 of the script. -/
def trustPat : String := "Do you trust the files in this folder?"

/-- Boot-indicator alternatives, line 269:
`grep -qE '(Claude Code v|Try "|Thinking on|tab to toggle)'`. -/
def bootAlts : List String :=
  ["Claude Code v", "Try \"", "Thinking on", "tab to toggle"]

/-- Screen matches the trust prompt. -/
def screenHasTrust (screen : List String) : Bool :=
  screenHas screen trustPat

/-- Screen matches a boot indicator (some line contains some alternative). -/
def screenHasBoot (screen : List String) : Bool :=
  screen.any (fun l => bootAlts.any (fun p => strContains p l))

/-- Auth-failure pattern, line 278:
`grep -qE '(sign in|login|authentication|unauthorized|Please run.*claude login)'`. -/
def authLineMatch (l : String) : Bool :=
  strContains ("sign in") l || strContains ("login") l ||
  strContains ("authentication") l || strContains ("unauthorized") l ||
  containsSeq [("Please run").data, ("claude login").data] l.data

/-- Screen matches the auth-failure alternation. -/
def screenHasAuth (screen : List String) : Bool :=
  screen.any authLineMatch

/-- Health-check pattern of `session_health_check`, line 102:
`grep -qE '(Claude Code v|Try "|Thinking on|tab to toggle|Current session|Status.*Config.*Usage)'`. -/
def healthLineMatch (l : String) : Bool :=
  strContains ("Claude Code v") l || strContains ("Try \"") l ||
  strContains ("Thinking on") l || strContains ("tab to toggle") l ||
  strContains ("Current session") l ||
  containsSeq [("Status").data, ("Config").data, ("Usage").data] l.data

/-- `session_health_check` (lines 94-109): passes iff some line of the
captured pane matches a liveness indicator. -/
def session_health_check (screen : List String) : Bool :=
  screen.any healthLineMatch

/-! ### The percentage `sed` stage

`sed -E 's/.*[^0-9]([0-9]+)% used.*/\1/'` (lines 432/436/441).  Under
POSIX leftmost-longest semantics the leading greedy `.*` selects the last
occurrence in the line of a digit run that is immediately followed by
`% used` and immediately preceded by a non-digit character; the whole line
is then replaced by that digit run.  When the pattern does not match the
line passes through `sed` unchanged. -/

/-- The literal `% used` token. -/
def pctUsedToken : List Char := ("% used").data

/-- Given the reversed prefix of the line before a `% used` occurrence,
return the digit run the capture group would grab, provided the run is
nonempty and is preceded by at least one (necessarily non-digit)
character. -/
def pctGroupAt (preRev : List Char) : Option (List Char) :=
  let ds := preRev.takeWhile (fun c => c.isDigit)
  if ds.isEmpty then none
  else if (preRev.drop ds.length).isEmpty then none
  else some ds.reverse

/-- Scan for the last `% used` occurrence with a valid capture group.
`preRev` is the reversed list of characters already consumed. -/
def lastPctScan : List Char → List Char → Option (List Char)
  | _, [] => none
  | preRev, c :: rest =>
    match lastPctScan (c :: preRev) rest with
    | some r => some r
    | none =>
      if pctUsedToken.isPrefixOf (c :: rest) then pctGroupAt preRev else none

/-- One line through `sed -E 's/.*[^0-9]([0-9]+)% used.*/\1/'`. -/
def sedPctLine (line : String) : String :=
  match lastPctScan [] line.data with
  | some ds => String.mk ds
  | none => line

/-! ### The resets `sed | xargs` stage -/

/-- Return the suffix after the last occurrence of `pat`, or `none`. -/
def afterLast (pat : List Char) : List Char → List Char → Option (List Char)
  | _, [] => none
  | preRev, c :: rest =>
    match afterLast pat (c :: preRev) rest with
    | some r => some r
    | none =>
      if pat.isPrefixOf (c :: rest) then some ((c :: rest).drop pat.length)
      else none

/-- One line through `sed 's/.*Resets *//'`: strip through the last
`Resets` and any following spaces (greedy `.*` takes the last occurrence,
`" *"` then eats the maximal space run); unmatched lines pass through. -/
def sedResetsLine (line : String) : String :=
  match afterLast ("Resets").data [] line.data with
  | some rest => String.mk (rest.dropWhile (fun c => c == ' '))
  | none => line

/-- Whitespace tokenizer: split on spaces, tabs and newlines, dropping
empty tokens.  The first argument accumulates the current token reversed. -/
def wordsAux : List Char → List Char → List String
  | cur, [] => if cur.isEmpty then [] else [String.mk cur.reverse]
  | cur, c :: rest =>
    if c == ' ' || c == '\t' || c == '\n' then
      if cur.isEmpty then wordsAux [] rest
      else String.mk cur.reverse :: wordsAux [] rest
    else wordsAux (c :: cur) rest

/-- `| xargs` with no command: echo the whitespace-separated tokens of the
input joined by single spaces. -/
def xargsEcho (s : String) : String :=
  String.intercalate (" ") (wordsAux [] s.data)

/-! ### `grep -A2` -/

/-- `grep -A2 PAT`: keep each matching line together with up to two
following context lines (a fresh match resets the context window; the
`--` group separators GNU grep prints never contain `% used` or `Resets`,
so they are irrelevant to the downstream filters and are omitted). -/
def grepA2Aux (pat : String) : Nat → List String → List String
  | _, [] => []
  | k, l :: ls =>
    if strContains pat l then l :: grepA2Aux pat 2 ls
    else if k == 0 then grepA2Aux pat 0 ls
    else l :: grepA2Aux pat (k - 1) ls

/-- `echo "$usage_output" | grep -A2 PAT`. -/
def grepA2 (pat : String) (ls : List String) : List String :=
  grepA2Aux pat 0 ls

/-! ### The four extraction pipelines (lines 432-442) -/

/-- `grep -A2 HEADING | grep "% used" | sed -E 's/.*[^0-9]([0-9]+)% used.*/\1/'`,
with the command substitution joining the resulting lines by newlines
(empty output when nothing matched, which is what `|| echo ""` yields). -/
def pctPipeline (heading : String) (screen : List String) : String :=
  String.intercalate ("\n")
    (((grepA2 heading screen).filter (fun l => strContains ("% used") l)).map
      sedPctLine)

/-- `grep -A2 HEADING | grep "Resets" | sed 's/.*Resets *//' | xargs`. -/
def resetsPipeline (heading : String) (screen : List String) : String :=
  xargsEcho
    (String.intercalate ("\n")
      (((grepA2 heading screen).filter (fun l => strContains ("Resets") l)).map
        sedResetsLine))

/-- `session_pct` (line 432). -/
def session_pct (screen : List String) : String :=
  pctPipeline ("Current session") screen

/-- `session_resets` (line 433). -/
def session_resets (screen : List String) : String :=
  resetsPipeline ("Current session") screen

/-- `week_all_pct` (line 436). -/
def week_all_pct (screen : List String) : String :=
  pctPipeline ("Current week (all models)") screen

/-- `week_all_resets` (line 437). -/
def week_all_resets (screen : List String) : String :=
  resetsPipeline ("Current week (all models)") screen

/-- `week_opus_pct` (line 441). -/
def week_opus_pct (screen : List String) : String :=
  pctPipeline ("Current week (Opus)") screen

/-- `week_opus_resets` (line 442). -/
def week_opus_resets (screen : List String) : String :=
  resetsPipeline ("Current week (Opus)") screen

/-- The interpolated bucket text
`{"pct_used": $pct, "resets": "$resets"}` (line 443). -/
def opusBucketText (pct resets : String) : String :=
  "\x7b\"pct_used\": " ++ pct ++ ", \"resets\": \"" ++ resets ++ "\"\x7d"

/-- `week_opus_json` (lines 440-446): the bucket text when the
`Current week (Opus)` heading is on screen, the literal `null` otherwise. -/
def week_opus_json (screen : List String) : String :=
  if screenHas screen ("Current week (Opus)") then
    opusBucketText (week_opus_pct screen) (week_opus_resets screen)
  else "null"

/-- The success-envelope emission condition: the retry loop's loading check
(line 424) plus the final validation (line 461) — a success envelope is
printed iff the captured screen is not still loading and both mandatory
percentages extracted nonempty. -/
def success_emitted (screen : List String) : Bool :=
  !(screenHas screen ("Loading usage data")) &&
  (session_pct screen != "") && (week_all_pct screen != "")

/-! ### Integer-percentage predicates used to state the claims -/

/-- Numeric value of a digit character. -/
def digitVal (c : Char) : Nat := c.toNat - ('0').toNat

/-- Value of a decimal digit string. -/
def digitsToNat (ds : List Char) : Nat :=
  ds.foldl (fun a c => a * 10 + digitVal c) 0

/-- Is the string a nonempty run of decimal digits (i.e. the decimal
notation of a nonnegative integer)? -/
def isDigitString (s : String) : Bool :=
  (s != "") && s.data.all (fun c => c.isDigit)

/-- Is the string an integer in the range 0 to 100 inclusive, as the
spec's percentage contract demands? -/
def isPct0To100 (s : String) : Bool :=
  isDigitString s && digitsToNat s.data ≤ 100

/-! ### Session store (`is_session_valid`, lines 62-91) -/

/-- Default session lifetime: `SESSION_TIMEOUT_HOURS * 3600` seconds
(line 30), 5 hours by default. -/
def sessionTimeoutSecsOf (hours : Int) : Int := hours * 3600

/-- `is_session_valid`: fails if the tmux session does not exist, if the
timestamp file is missing, or if `current_time - session_timestamp`
exceeds the configured lifetime (bash `$((...))` arithmetic is signed). -/
def is_session_valid (sessionExists : Bool) (tsRecord : Option Int)
    (now timeoutSecs : Int) : Bool :=
  if !sessionExists then false
  else
    match tsRecord with
    | none => false
    | some ts => !(now - ts > timeoutSecs)

/-! ### Boot detector (lines 248-296) -/

/-- Outcome of a single boot-poll tick. -/
inductive TickOutcome where
  | trustPrompt
  | booted
  | authError
  | keepPolling
deriving DecidableEq, Repr

/-- One iteration of the boot-poll loop body (lines 259-283): the trust
prompt is checked first and short-circuits the tick with `continue`
(after sending the accept keystroke); then the boot indicators, guarded
by a re-check that the trust prompt is absent; then the auth patterns;
otherwise the loop keeps polling. -/
def bootTick (output : List String) : TickOutcome :=
  if screenHasTrust output then TickOutcome.trustPrompt
  else if screenHasBoot output && !(screenHasTrust output) then
    TickOutcome.booted
  else if screenHasAuth output then TickOutcome.authError
  else TickOutcome.keepPolling

/-- Terminal result of the boot-poll loop, with the number of ticks that
ran before the loop stopped. -/
inductive BootResult where
  | booted (ticks : Nat)
  | authError (ticks : Nat)
  | timedOut
deriving DecidableEq, Repr

/-- The screen captured at tick `i` (an absent entry models a failed
`capture-pane`, which the script replaces by the empty string). -/
def screenAt (screens : List (List String)) (i : Nat) : List String :=
  screens.getD i []

/-- The boot-poll loop (lines 255-284): at most `fuel` iterations,
classifying each tick's capture; `trustPrompt` and `keepPolling` continue
polling, `booted` and `authError` stop immediately. -/
def bootLoopAux (screens : List (List String)) : Nat → Nat → BootResult
  | _, 0 => BootResult.timedOut
  | i, fuel + 1 =>
    match bootTick (screenAt screens i) with
    | TickOutcome.booted => BootResult.booted (i + 1)
    | TickOutcome.authError => BootResult.authError (i + 1)
    | _ => bootLoopAux screens (i + 1) fuel

/-- Run the boot-poll loop from the first tick. -/
def bootLoop (screens : List (List String)) (maxIter : Nat) : BootResult :=
  bootLoopAux screens 0 maxIter

/-- `max_iterations=$((TIMEOUT_SECS * 10 / 4))` (line 252): the iteration
ceiling of the boot-poll loop, computed from the timeout alone — the
divisor `4` hard-codes the default 0.4-second `SLEEP_BOOT` interval. -/
def maxIterations (timeoutSecs : Nat) : Nat := timeoutSecs * 10 / 4

/-- Number of ticks a terminal boot result reports. -/
def ticksUsed : BootResult → Nat
  | BootResult.booted n => n
  | BootResult.authError n => n
  | BootResult.timedOut => 0

/-! ### Top-level control flow as an event trace (whole script)

The script's externally visible state changes are modelled as an ordered
event list, together with the exit code and the final value of the
`SHOULD_CLEANUP` flag read by the `cleanup` EXIT trap (lines 170-180):
`true` means the trap kills the tmux server, `false` means the session is
preserved for reuse. -/

/-- Observable events of one invocation. -/
inductive Ev where
  | killStale
  | createSession
  | touch
  | bootConfirmed
  | extracted
  | parseFail
  | emitSuccess
deriving DecidableEq, Repr

/-- Environment of one invocation: dependency availability, the state the
session store and tmux server are in, and the screens the captures would
return. -/
structure RunInput where
  tmuxFound : Bool
  claudeFound : Bool
  sessionExists : Bool
  tsRecord : Option Int
  now : Int
  sessionTimeoutSecs : Int
  timeoutSecs : Nat
  healthScreen : List String
  bootScreens : List (List String)
  usageScreen : List String

/-- The scrape phase (lines 419-494) for a settled usage screen: a screen
still showing the loading indicator on every attempt never assigns the
percentage variables, so the script aborts without a success envelope
(modelled as exit 1 with cleanup); otherwise the final validation
(line 461) either prints the success envelope — touching the store and
clearing `SHOULD_CLEANUP` (lines 474-477) — or exits 16. -/
def scrapePhase (inp : RunInput) (evs : List Ev) : List Ev × Nat × Bool :=
  if screenHas inp.usageScreen ("Loading usage data") then (evs, 1, true)
  else if (session_pct inp.usageScreen != "") &&
      (week_all_pct inp.usageScreen != "") then
    (evs ++ [Ev.extracted, Ev.touch, Ev.emitSuccess], 0, false)
  else (evs ++ [Ev.parseFail], 16, true)

/-- The whole invocation (dependency checks, session reuse decision,
creation plus boot wait, scrape), returning the ordered event trace, the
exit code, and the final `SHOULD_CLEANUP` flag.  The timestamp write
`update_timestamp` inside the session-creation block (line 241) is the
`Ev.touch` immediately after `Ev.createSession`. -/
def runScript (inp : RunInput) : List Ev × Nat × Bool :=
  if !inp.tmuxFound then ([], 15, true)
  else if !inp.claudeFound then ([], 14, true)
  else if is_session_valid inp.sessionExists inp.tsRecord inp.now
        inp.sessionTimeoutSecs
      && session_health_check inp.healthScreen then
    scrapePhase inp []
  else
    match bootLoop inp.bootScreens (maxIterations inp.timeoutSecs) with
    | BootResult.authError _ =>
      ([Ev.killStale, Ev.createSession, Ev.touch], 13, true)
    | BootResult.timedOut =>
      ([Ev.killStale, Ev.createSession, Ev.touch], 12, true)
    | BootResult.booted _ =>
      scrapePhase inp
        ([Ev.killStale, Ev.createSession, Ev.touch] ++ [Ev.bootConfirmed])

/-- Checker for the claim "the timestamp record is only written after a
fully successful extraction": scanning left to right, any `touch` seen
before the first `extracted` refutes it. -/
def noTouchBeforeExtract : List Ev → Bool
  | [] => true
  | Ev.touch :: _ => false
  | Ev.extracted :: _ => true
  | _ :: rest => noTouchBeforeExtract rest

/-- Checker for the amended placement discipline: every `touch` either
immediately follows `createSession` or comes after an `extracted`. -/
def touchPlacementAux : Bool → Option Ev → List Ev → Bool
  | _, _, [] => true
  | seenX, prev, e :: rest =>
    (match e with
     | Ev.touch => seenX || prev == some Ev.createSession
     | _ => true) &&
    touchPlacementAux (seenX || e == Ev.extracted) (some e) rest

/-- Every `touch` in the trace is the session-creation write or follows a
successful extraction. -/
def touchPlacement (evs : List Ev) : Bool :=
  touchPlacementAux false none evs

/-! ### Result assembler (lines 406 and 479-494) -/

/-- `status_json` (line 406): the interpolated status object text. -/
def statusJsonText (version login org mcp : String) : String :=
  "\x7b\"version\": \"" ++ version ++ "\", \"login_method\": \"" ++ login ++
  "\", \"organization\": \"" ++ org ++ "\", \"mcp_servers\": " ++ mcp ++
  "\x7d"

/-- The success heredoc (lines 479-494), transcribed byte for byte with
its interpolation points as arguments. -/
def successJsonText (statusJson sPct sResets wPct wResets opusJson :
    String) : String :=
  "\x7b\n  \"ok\": true,\n  \"source\": \"tmux-capture\",\n  \"status\": " ++
  statusJson ++
  ",\n  \"session_5h\": \x7b\n    \"pct_used\": " ++ sPct ++
  ",\n    \"resets\": \"" ++ sResets ++
  "\"\n  \x7d,\n  \"week_all_models\": \x7b\n    \"pct_used\": " ++ wPct ++
  ",\n    \"resets\": \"" ++ wResets ++
  "\"\n  \x7d,\n  \"week_opus\": " ++ opusJson ++ "\n\x7d"

/-- State of the top-level-key scanner: nesting depth of braces/brackets,
whether we are inside a string literal, the characters of that literal
(reversed), a just-closed depth-1 string waiting to see whether a colon
follows (making it a key), and the keys collected so far (reversed). -/
structure ScanSt where
  depth : Nat
  inStr : Bool
  cur : List Char
  pending : Option (List Char)
  acc : List String

/-- Structural part of one scanner step (outside string literals). -/
def scanStepCore (st : ScanSt) (c : Char) : ScanSt :=
  if c == '"' then { st with inStr := true, cur := [] }
  else if c == '\x7b' || c == '[' then { st with depth := st.depth + 1 }
  else if c == '\x7d' || c == ']' then { st with depth := st.depth - 1 }
  else st

/-- One scanner step.  A string literal that closes at depth 1 becomes
`pending`; it is recorded as a key iff the next non-space character is a
colon.  (Escape sequences are not handled: none of the inputs considered
here contain backslashes.) -/
def scanStep (st : ScanSt) (c : Char) : ScanSt :=
  if st.inStr then
    if c == '"' then
      { st with
        inStr := false,
        pending := if st.depth == 1 then some st.cur.reverse else none }
    else { st with cur := c :: st.cur }
  else
    match st.pending with
    | some s =>
      if c == ' ' then st
      else if c == ':' then
        { st with pending := none, acc := String.mk s :: st.acc }
      else scanStepCore { st with pending := none } c
    | none => scanStepCore st c

/-- The scanner's initial state: top level, outside any string. -/
def scanInit : ScanSt :=
  { depth := 0, inStr := false, cur := [], pending := none, acc := [] }

/-- Run the scanner over a character list. -/
def scanList (st : ScanSt) (cs : List Char) : ScanSt :=
  cs.foldl scanStep st

/-- The names of the top-level fields of a JSON object document, in the
order they appear. -/
def topLevelKeys (s : String) : List String :=
  (scanList scanInit s.data).acc.reverse

/-- Characters that do not terminate a string literal. -/
def noQuote (c : Char) : Bool := !(c == '"')

/-- Characters that leave the scanner untouched outside string literals:
no double quote, no braces, no brackets. -/
def plainChar (c : Char) : Bool :=
  !(c == '"') && !(c == '\x7b') && !(c == '\x7d') && !(c == '[') &&
  !(c == ']')

/-- A fragment is neutral at depth `d` when scanning it from depth `d`,
outside any string with nothing pending, returns to that same control
state without recording any key — only the scratch `cur` buffer may
change.  This is the benignness condition under which an interpolated
fragment cannot add or remove top-level fields of the envelope. -/
def NeutralAt (d : Nat) (s : String) : Prop :=
  ∀ cur acc, ∃ cur2,
    scanList
        { depth := d, inStr := false, cur := cur, pending := none,
          acc := acc } s.data =
      { depth := d, inStr := false, cur := cur2, pending := none,
        acc := acc }

/-! ### `StatusBarManager.createProgressBar` (src/unnamed/part_000, lines 48-59) -/

/-- JavaScript `Math.round`: round half toward positive infinity,
`⌊q + 1/2⌋` (stated via `Rat.floor`, the computable floor on `ℚ`). -/
def jsRound (q : ℚ) : ℤ := Rat.floor (q + 1 / 2)

/-- JavaScript `String.prototype.repeat`: throws a `RangeError` on a
negative count, modelled as `none`. -/
def repeatChar (c : Char) (n : ℤ) : Option String :=
  if n < 0 then none else some (String.mk (List.replicate n.toNat c))

/-- `createProgressBar` over exact rationals:
`filledBars = Math.round(percentage / 100 * 20)`,
`emptyBars = 20 - filledBars`, filled dots then empty dots. -/
def createProgressBar (percentage : ℚ) : Option String := do
  let totalBars : ℤ := 20
  let filledBars : ℤ := jsRound (percentage / 100 * 20)
  let emptyBars : ℤ := totalBars - filledBars
  let filled ← repeatChar ('●') filledBars
  let empty ← repeatChar ('○') emptyBars
  pure (filled ++ empty)




/-! ### Concrete screens and runs used by counterexamples and witnesses -/

/-- A usage screen whose session line shows `120% used`: the digit string
the TUI rendered is out of the 0-100 range, yet every extraction and the
final validation succeed. -/
def ex120Screen : List String :=
  [("Current session"), (" 120% used"), (" Resets 3pm"),
   ("Current week (all models)"), (" 10% used"), (" Resets Oct 6")]

/-- A usage screen with an Opus heading but no data lines below it. -/
def exOpusMissingScreen : List String :=
  [("Current session"), (" 42% used"), (" Resets 3pm"),
   ("Current week (all models)"), (" 10% used"), (" Resets Oct 6"),
   ("Current week (Opus)")]

/-- A fully well-formed usage screen (all three buckets present). -/
def exGoodScreen : List String :=
  [("Current session"), (" 42% used"), (" Resets 3pm"),
   ("Current week (all models)"), (" 10% used"), (" Resets Oct 6"),
   ("Current week (Opus)"), (" 5% used"), (" Resets Oct 8")]

/-- A boot-tick capture showing both the trust prompt and the boot
banner. -/
def exTrustBootScreen : List String :=
  [("Do you trust the files in this folder?"), ("Claude Code v2.0.26")]

/-- A boot-tick capture matching both a boot indicator (`Claude Code v`)
and an auth pattern (`login`). -/
def exAuthBootScreen : List String :=
  [("Claude Code v2.0.26"), ("please login")]

/-- A boot-tick capture matching only the auth patterns. -/
def exAuthOnlyScreen : List String :=
  [("Please run claude login")]

/-- An invocation that finds no prior session, creates one, boots on the
first poll tick, and scrapes a complete screen. -/
def exCreateRun : RunInput :=
  { tmuxFound := true, claudeFound := true, sessionExists := false,
    tsRecord := none, now := 0, sessionTimeoutSecs := 18000,
    timeoutSecs := 10, healthScreen := [],
    bootScreens := [[("Claude Code v2.0.26")]],
    usageScreen := exGoodScreen }

/-- An invocation that reuses a healthy session but scrapes a screen on
which parsing fails. -/
def exParseFailRun : RunInput :=
  { tmuxFound := true, claudeFound := true, sessionExists := true,
    tsRecord := some 0, now := 60, sessionTimeoutSecs := 18000,
    timeoutSecs := 10, healthScreen := [("Claude Code v2.0.26")],
    bootScreens := [], usageScreen := [("something unexpected")] }

/-- A concrete `status_json` value. -/
def exStatusText : String :=
  statusJsonText ("2.0.26") ("Claude account") ("N/A") ("[\"clickup\"]")

/-! ### Sanity examples (the spec's own scraper scenario, §8) -/

example :
    session_pct [("Current session"), (" 42% used"), (" Resets 3h12m")] =
      ("42") := by decide

example :
    session_resets [("Current session"), (" 42% used"), (" Resets 3h12m")] =
      ("3h12m") := by decide

example :
    week_opus_json [("Current session"), (" 42% used")] = ("null") := by decide

/-! ### Shared helper lemmas -/

/-- `jsRound` is the mathematical `⌊q + 1/2⌋`. -/
theorem jsRound_eq (q : ℚ) : jsRound q = Int.floor (q + 1 / 2) := by
  rw [jsRound, Rat.floor_def, Rat.floor_def']

/-- The capture group returned by `pctGroupAt` is a nonempty digit run. -/
lemma pctGroupAt_digits (preRev ds : List Char)
    (h : pctGroupAt preRev = some ds) :
    ds ≠ [] ∧ ∀ c ∈ ds, c.isDigit = true := by
  simp only [pctGroupAt] at h
  by_cases h1 : (preRev.takeWhile (fun c => c.isDigit)).isEmpty
  · simp [h1] at h
  · by_cases h2 :
        (preRev.drop (preRev.takeWhile (fun c => c.isDigit)).length).isEmpty
    · simp [h1, h2] at h
    · simp [h1, h2] at h
      constructor
      · rw [← h]
        simp only [List.isEmpty_iff] at h1
        simpa using h1
      · intro c hc
        rw [← h, List.mem_reverse] at hc
        exact List.mem_takeWhile_imp hc

/-- Whatever `lastPctScan` captures is a nonempty digit run. -/
lemma lastPctScan_digits :
    ∀ (rest preRev ds : List Char), lastPctScan preRev rest = some ds →
      ds ≠ [] ∧ ∀ c ∈ ds, c.isDigit = true := by
  intro rest
  induction rest with
  | nil => intro preRev ds h; simp [lastPctScan] at h
  | cons c cs ih =>
    intro preRev ds h
    simp only [lastPctScan] at h
    rcases hrec : lastPctScan (c :: preRev) cs with _ | r
    · rw [hrec] at h
      by_cases hp : pctUsedToken.isPrefixOf (c :: cs)
      · simp only [hp, if_true] at h
        exact pctGroupAt_digits preRev ds h
      · simp [hp] at h
    · rw [hrec] at h
      simp only [Option.some.injEq] at h
      exact h ▸ ih (c :: preRev) r hrec

/-- The interpolated Opus bucket text is never the literal `null` (its
length is at least 28 characters). -/
lemma opusBucketText_ne_null (p r : String) :
    opusBucketText p r ≠ ("null") := by
  intro hcon
  have hlen : (opusBucketText p r).length = ("null" : String).length := by
    rw [hcon]
  have e1 : ("\x7b\"pct_used\": " : String).length = 13 := rfl
  have e2 : (", \"resets\": \"" : String).length = 13 := rfl
  have e3 : ("\"\x7d" : String).length = 2 := rfl
  have e4 : ("null" : String).length = 4 := rfl
  simp [opusBucketText, e1, e2, e3, e4] at hlen
  omega

/-- On every path of `runScript`, the `SHOULD_CLEANUP` flag is cleared
exactly on the success exit. -/
lemma runScript_cleanup_iff (inp : RunInput) :
    ((runScript inp).2.2 = false) ↔ ((runScript inp).2.1 = 0) := by
  unfold runScript scrapePhase
  repeat' split <;> try decide

/-! ### C4 -/

/--
C4: `is_session_valid` returns `false` exactly when the tmux session does
not exist, or no timestamp record exists, or the record's age exceeds the
configured lifetime — and, provided the recorded timestamp does not lie
in the future of `T` (the amendment), a record valid at time `T` is
invalid at every time strictly later than `T` plus the lifetime.
-/
theorem c4_theorem (t T T2 L : Int) (hpast : t ≤ T)
    (hvalid : is_session_valid true (some t) T L = true)
    (hlate : T + L < T2) :
    (∀ (e : Bool) (r : Option Int) (now : Int),
      is_session_valid e r now L = true ↔
        (e = true ∧ ∃ u, r = some u ∧ now - u ≤ L)) ∧
    is_session_valid true (some t) T2 L = false := by
  constructor
  · intro e r now
    cases e <;> cases r <;> simp [is_session_valid]
  · have hage : T - t ≤ L := by
      simp [is_session_valid] at hvalid
      omega
    simp [is_session_valid]
    omega

/-- Witness for C4 at `t = 0`, `T = 0`, `T2 = 18001`, `L = 18000`. -/
theorem c4_witness :
    is_session_valid true (some 0) 0 18000 = true ∧
    is_session_valid true (some 0) 18001 18000 = false := by
  refine ⟨by decide, ?_⟩
  exact (c4_theorem 0 0 18001 18000 (by decide) (by decide) (by decide)).2

/--
C4 counterexample: with the timestamp record holding a future time
(`1000`), the record is valid at `T = 0` and still valid at
`T2 = 18001 > T + 18000`, refuting the unconditional monotonicity part of
the claim (bash `$((current_time - session_timestamp))` is signed, and
the script never checks for negative ages).
-/
theorem c4_counterexample :
    is_session_valid true (some 1000) 0 18000 = true ∧
    (0 : Int) + 18000 < 18001 ∧
    is_session_valid true (some 1000) 18001 18000 = true := by decide

/-! ### C6 -/

/--
C6: whenever a boot-poll capture matches the trust prompt, the tick
classifies as `trustPrompt` (the accept keystroke is sent and the loop
`continue`s), never as `booted` — even when a boot indicator is visible
on the same screen — and the loop keeps polling into the next tick.
-/
theorem c6_theorem (s : List String) (h : screenHasTrust s = true) :
    bootTick s = TickOutcome.trustPrompt ∧
    bootTick s ≠ TickOutcome.booted ∧
    ∀ (rest : List (List String)) (fuel : Nat),
      bootLoopAux (s :: rest) 0 (fuel + 1) = bootLoopAux (s :: rest) 1 fuel := by
  have hb : bootTick s = TickOutcome.trustPrompt := by
    simp [bootTick, h]
  refine ⟨hb, ?_, ?_⟩
  · rw [hb]; decide
  intro rest fuel
  have hs : screenAt (s :: rest) 0 = s := rfl
  simp [bootLoopAux, hs, hb]

/-- Witness for C6: a screen showing both the trust prompt and the boot
banner still classifies as `trustPrompt`. -/
theorem c6_witness :
    screenHasTrust exTrustBootScreen = true ∧
    screenHasBoot exTrustBootScreen = true ∧
    bootTick exTrustBootScreen = TickOutcome.trustPrompt := by
  refine ⟨by decide, by decide, ?_⟩
  exact (c6_theorem exTrustBootScreen (by decide)).1

/-! ### C7 -/

/--
C7 (amended): a boot-poll capture matching an auth-failure pattern
classifies as `authError` on that same tick — terminating the loop after
that single tick no matter how much timeout budget remains — provided the
capture matches neither the trust prompt nor a boot indicator, because
the script checks those two patterns first (lines 262 and 269 precede
line 278).
-/
theorem c7_theorem (s : List String) (hau : screenHasAuth s = true)
    (htr : screenHasTrust s = false) (hbo : screenHasBoot s = false) :
    bootTick s = TickOutcome.authError ∧
    ∀ (rest : List (List String)) (fuel : Nat),
      bootLoop (s :: rest) (fuel + 1) = BootResult.authError 1 := by
  have hb : bootTick s = TickOutcome.authError := by
    simp [bootTick, hau, htr, hbo]
  refine ⟨hb, ?_⟩
  intro rest fuel
  have hs : screenAt (s :: rest) 0 = s := rfl
  simp [bootLoop, bootLoopAux, hs, hb]

/-- Witness for C7: a pure auth screen stops a 25-tick loop after one
tick. -/
theorem c7_witness :
    screenHasAuth exAuthOnlyScreen = true ∧
    bootLoop [exAuthOnlyScreen] 25 = BootResult.authError 1 := by
  refine ⟨by decide, ?_⟩
  exact (c7_theorem exAuthOnlyScreen (by decide) (by decide) (by decide)).2
    [] 24

/--
C7 counterexample: the capture `["Claude Code v2.0.26", "please login"]`
matches the auth alternation, yet the tick classifies as `booted`, not
`authError`, because the boot-indicator check runs first.
-/
theorem c7_counterexample :
    screenHasAuth exAuthBootScreen = true ∧
    bootTick exAuthBootScreen = TickOutcome.booted ∧
    bootTick exAuthBootScreen ≠ TickOutcome.authError := by decide

/-! ### C9 -/

/--
C9 (amended): the boot-poll loop runs at most
`maxIterations T = T * 10 / 4` ticks — a ceiling computed from the
timeout alone, with the default 0.4 s interval hard-coded as the divisor
— so the total polling time is bounded by the configured timeout `T`
only when the poll interval is at most 0.4 s (`sDeci ≤ 4`, measured in
tenths of a second).
-/
theorem c9_theorem (t sDeci : Nat) (h : sDeci ≤ 4) :
    maxIterations t * sDeci ≤ t * 10 ∧
    ∀ screens : List (List String),
      ticksUsed (bootLoop screens (maxIterations t)) ≤ maxIterations t := by
  constructor
  · calc maxIterations t * sDeci ≤ maxIterations t * 4 :=
          Nat.mul_le_mul_left _ h
      _ ≤ t * 10 := Nat.div_mul_le_self _ _
  · intro screens
    have haux : ∀ (fuel i : Nat),
        ticksUsed (bootLoopAux screens i fuel) ≤ i + fuel := by
      intro fuel
      induction fuel with
      | zero => intro i; simp [bootLoopAux, ticksUsed]
      | succ n ih =>
        intro i
        rcases hb : bootTick (screenAt screens i) with _ | _ | _ | _ <;>
          simp [bootLoopAux, hb, ticksUsed] <;>
          first
            | omega
            | (exact le_trans (ih (i + 1)) (by omega))
    simpa using haux (maxIterations t) 0

/-- Witness for C9 at the default configuration `T = 10`,
`interval = 0.4 s`. -/
theorem c9_witness :
    maxIterations 10 * 4 ≤ 10 * 10 ∧
    ticksUsed (bootLoop [] (maxIterations 10)) ≤ maxIterations 10 := by
  exact ⟨(c9_theorem 10 4 (by decide)).1, (c9_theorem 10 4 (by decide)).2 []⟩

/--
C9 counterexample: with `T = 10` seconds and the poll interval overridden
to 2 seconds (`20` tenths), the iteration ceiling is still `25`, so the
loop may poll for `25 × 2 s = 50 s`, exceeding the configured 10-second
budget — the claimed `T / s` tick bound (`5` ticks) does not hold.
-/
theorem c9_counterexample :
    maxIterations 10 = 25 ∧ ¬(maxIterations 10 * 20 ≤ 10 * 10) ∧
    ¬(maxIterations 10 ≤ 10 * 10 / 20) := by decide

/-! ### C1 -/

/--
C1 (amended): whenever the success envelope is emitted, the
`session_5h.pct_used` and `week_all_models.pct_used` strings are
nonempty (that is all the final validation at line 461 checks), and any
line on which the extraction regex matched contributes a nonempty digit
string — a nonnegative integer — but the script applies no 0-100 range
check, so integers greater than 100 pass straight into the envelope.
-/
theorem c1_theorem (screen : List String) (lineStr : String) (ds : List Char)
    (hemit : success_emitted screen = true)
    (hmatch : lastPctScan [] lineStr.data = some ds) :
    session_pct screen ≠ ("") ∧ week_all_pct screen ≠ ("") ∧
    sedPctLine lineStr = String.mk ds ∧
    isDigitString (String.mk ds) = true := by
  have hd := lastPctScan_digits lineStr.data [] ds hmatch
  have hse : session_pct screen ≠ ("") ∧ week_all_pct screen ≠ ("") := by
    simp only [success_emitted, Bool.and_eq_true, bne_iff_ne, ne_eq] at hemit
    exact ⟨hemit.1.2, hemit.2⟩
  have hsed : sedPctLine lineStr = String.mk ds := by
    unfold sedPctLine
    rw [hmatch]
  have hne : String.mk ds ≠ ("") := by
    intro hcon
    apply hd.1
    have hdata : (String.mk ds).data = ("" : String).data := by rw [hcon]
    simpa using hdata
  have hall : (String.mk ds).data.all (fun c => c.isDigit) = true := by
    rw [List.all_eq_true]
    intro c hc
    exact hd.2 c hc
  refine ⟨hse.1, hse.2, hsed, ?_⟩
  simp [isDigitString, hall, hne]

set_option maxRecDepth 8000 in
/-- Witness for C1 on a fully well-formed screen. -/
theorem c1_witness :
    success_emitted exGoodScreen = true ∧
    session_pct exGoodScreen ≠ ("") ∧
    sedPctLine (" 42% used") = ("42") ∧
    isDigitString ("42") = true := by
  have h := c1_theorem exGoodScreen (" 42% used") (("42").data)
    (by decide) (by decide)
  exact ⟨by decide, h.1, h.2.2.1, h.2.2.2⟩

set_option maxRecDepth 8000 in
/--
C1 counterexample: a captured screen whose session line reads
`" 120% used"` passes the final validation and emits a success envelope
whose `session_5h.pct_used` is the integer 120, outside the claimed
0-100 range.
-/
theorem c1_counterexample :
    success_emitted ex120Screen = true ∧
    session_pct ex120Screen = ("120") ∧
    isPct0To100 (session_pct ex120Screen) = false := by decide

/-! ### C2 -/

/--
C2 (amended): `week_opus_json` is exactly the literal `null` iff the
captured screen lacks the `Current week (Opus)` heading; when the
heading is present the field is the bucket text interpolated from
whatever strings the extraction produced — with no validation, so its
`pct_used` may be empty (and the bucket malformed) when no parsable
percentage line follows the heading.
-/
theorem c2_theorem (screen : List String)
    (hemit : success_emitted screen = true) :
    (week_opus_json screen = ("null") ↔
      screenHas screen ("Current week (Opus)") = false) ∧
    (screenHas screen ("Current week (Opus)") = true →
      week_opus_json screen =
        opusBucketText (week_opus_pct screen) (week_opus_resets screen)) := by
  by_cases h : screenHas screen ("Current week (Opus)")
  · rw [week_opus_json, if_pos h]
    constructor
    · constructor
      · intro hcon
        exact absurd hcon (opusBucketText_ne_null _ _)
      · intro hcon
        rw [h] at hcon
        cases hcon
    · intro _
      rfl
  · rw [week_opus_json, if_neg h]
    constructor
    · simp [h]
    · intro hcon
      rw [hcon] at h
      exact absurd rfl h

set_option maxRecDepth 8000 in
/-- Witness for C2 on a fully well-formed screen. -/
theorem c2_witness :
    success_emitted exGoodScreen = true ∧
    (week_opus_json exGoodScreen = ("null") ↔
      screenHas exGoodScreen ("Current week (Opus)") = false) := by
  exact ⟨by decide, (c2_theorem exGoodScreen (by decide)).1⟩

set_option maxRecDepth 8000 in
/--
C2 counterexample: a screen carrying the Opus heading with no data lines
below it still emits a success envelope, and `week_opus` serializes as a
bucket whose `pct_used` field is empty — exactly the empty-placeholder
bucket the claim rules out (and malformed JSON besides).
-/
theorem c2_counterexample :
    success_emitted exOpusMissingScreen = true ∧
    screenHas exOpusMissingScreen ("Current week (Opus)") = true ∧
    week_opus_pct exOpusMissingScreen = ("") ∧
    week_opus_json exOpusMissingScreen =
      ("\x7b\"pct_used\": , \"resets\": \"\"\x7d") ∧
    isDigitString (week_opus_pct exOpusMissingScreen) = false := by decide

/-! ### C3 -/

/--
C3 (amended): the timestamp record is overwritten at exactly two points:
immediately after the tmux session is created (line 241, before boot is
even attempted) and again after a fully successful capture (line 474);
every `touch` in every trace is one of those two.
-/
theorem c3_theorem (inp : RunInput) :
    touchPlacement (runScript inp).1 = true := by
  unfold runScript scrapePhase
  repeat' split <;> try decide

set_option maxRecDepth 8000 in
/--
C3 counterexample: a run that creates a fresh session writes the
timestamp record (the first `touch`) immediately after `createSession`,
before boot is confirmed and before any usage data is extracted, so the
record is not written only after a capture attempt fully succeeds.
-/
theorem c3_counterexample :
    (runScript exCreateRun).1 =
      [Ev.killStale, Ev.createSession, Ev.touch, Ev.bootConfirmed,
       Ev.extracted, Ev.touch, Ev.emitSuccess] ∧
    (runScript exCreateRun).2.1 = 0 ∧
    noTouchBeforeExtract (runScript exCreateRun).1 = false := by decide

/-! ### C5 -/

/--
C5 (amended): the terminal session is preserved (the cleanup trap is
disarmed) exactly on the successful exit, on which the store is also
touched; every failing exit — including a scraping-only parsing failure
after a successful boot — leaves `SHOULD_CLEANUP` set, so the EXIT trap
kills the tmux server.
-/
theorem c5_theorem (inp : RunInput) :
    ((runScript inp).2.2 = false ↔ (runScript inp).2.1 = 0) ∧
    ((runScript inp).2.1 = 0 →
      Ev.touch ∈ (runScript inp).1 ∧ Ev.extracted ∈ (runScript inp).1 ∧
      Ev.emitSuccess ∈ (runScript inp).1) := by
  refine ⟨runScript_cleanup_iff inp, ?_⟩
  unfold runScript scrapePhase
  repeat' split <;> try decide

set_option maxRecDepth 8000 in
/-- Witness for C5: a successful creation run preserves the session and
touches the store; a concrete parsing-failure run exits 16 with the
cleanup trap armed. -/
theorem c5_witness :
    ((runScript exCreateRun).2.2 = false ↔ (runScript exCreateRun).2.1 = 0) ∧
    Ev.touch ∈ (runScript exCreateRun).1 ∧
    (runScript exParseFailRun).2.1 = 16 ∧
    (runScript exParseFailRun).2.2 = true := by
  refine ⟨(c5_theorem exCreateRun).1, ?_, by decide, by decide⟩
  exact ((c5_theorem exCreateRun).2 (by decide)).1

/--
C5 counterexample: there is no run that exits with the parsing-failure
code 16 while leaving the session preserved — the cleanup trap always
kills the server on that path, so no parsing-failure run lets the
session survive for reuse.
-/
theorem c5_counterexample :
    ¬ ∃ inp : RunInput,
      (runScript inp).2.1 = 16 ∧ (runScript inp).2.2 = false := by
  rintro ⟨inp, h16, hcl⟩
  have h0 := (runScript_cleanup_iff inp).mp hcl
  rw [h0] at h16
  exact absurd h16 (by decide)

/-! ### C8

Scanner lemmas: a step-by-step account of the key scanner over the
success heredoc, sufficient to settle its top-level fields for every
benign interpolation.  A fragment is benign when it cannot escape its
interpolation context: fragments spliced inside a string literal must
contain no double quote, fragments spliced outside must contain no
quote, brace or bracket, and the composite `status_json` / `week_opus`
fragments must be built by the script's own interpolations (line 406,
lines 440-446) from such pieces. -/

/-- Scanning distributes over concatenation. -/
lemma scanList_append (st : ScanSt) (a b : List Char) :
    scanList st (a ++ b) = scanList (scanList st a) b :=
  List.foldl_append scanStep st a b

/-- A plain character is a no-op outside strings with nothing pending. -/
lemma scanStep_plain (d : Nat) (cur : List Char) (acc : List String)
    (c : Char) (h : plainChar c = true) :
    scanStep ⟨d, false, cur, none, acc⟩ c = ⟨d, false, cur, none, acc⟩ := by
  simp only [plainChar, Bool.and_eq_true, Bool.not_eq_true'] at h
  obtain ⟨⟨⟨⟨h1, h2⟩, h3⟩, h4⟩, h5⟩ := h
  simp [scanStep, scanStepCore, h1, h2, h3, h4, h5]

/-- A fragment of plain characters leaves the scanner state unchanged. -/
lemma scanList_plain :
    ∀ (cs : List Char) (d : Nat) (cur : List Char) (acc : List String),
      cs.all plainChar = true →
      scanList ⟨d, false, cur, none, acc⟩ cs = ⟨d, false, cur, none, acc⟩ := by
  intro cs
  induction cs with
  | nil => intro d cur acc _; rfl
  | cons c cs ih =>
    intro d cur acc h
    simp only [List.all_cons, Bool.and_eq_true] at h
    rw [scanList, List.foldl_cons, scanStep_plain d cur acc c h.1]
    exact ih d cur acc h.2

/-- Inside a string literal, a non-quote character is only accumulated. -/
lemma scanStep_inStr (d : Nat) (cur : List Char) (p : Option (List Char))
    (acc : List String) (c : Char) (h : (c == '"') = false) :
    scanStep ⟨d, true, cur, p, acc⟩ c = ⟨d, true, c :: cur, p, acc⟩ := by
  simp [scanStep, h]

/-- A quote-free fragment inside a string literal only accumulates. -/
lemma scanList_inStr :
    ∀ (cs : List Char) (d : Nat) (cur : List Char) (p : Option (List Char))
      (acc : List String), cs.all noQuote = true →
      scanList ⟨d, true, cur, p, acc⟩ cs =
        ⟨d, true, cs.reverse ++ cur, p, acc⟩ := by
  intro cs
  induction cs with
  | nil => intro d cur p acc _; rfl
  | cons c cs ih =>
    intro d cur p acc h
    simp only [List.all_cons, Bool.and_eq_true, noQuote,
      Bool.not_eq_true'] at h
    rw [scanList, List.foldl_cons, scanStep_inStr d cur p acc c h.1]
    have hrec := ih d (c :: cur) p acc h.2
    rw [scanList] at hrec
    rw [hrec]
    simp

/-- Fragments of plain characters are neutral at every depth. -/
lemma neutralAt_of_plain (d : Nat) (s : String)
    (h : s.data.all plainChar = true) : NeutralAt d s :=
  fun cur acc => ⟨cur, scanList_plain s.data d cur acc h⟩

/-- The literal `null` is a neutral `week_opus` fragment. -/
lemma null_neutralAt : NeutralAt 1 ("null") :=
  neutralAt_of_plain 1 ("null") (by decide)

/-- Heredoc prologue through `"status": ` — records `ok`, drops the
`source` value string, records `source` and `status`. -/
lemma scanChunkA :
    scanList scanInit
        (("\x7b\n  \"ok\": true,\n  \"source\": \"tmux-capture\",\n  \"status\": ").data) =
      ⟨1, false, ['s', 'u', 't', 'a', 't', 's'], none,
        [("status"), ("source"), ("ok")]⟩ := by
  simp [scanList, scanInit, scanStep, scanStepCore, String.mk]

/-- Heredoc segment from the `status` value through `"pct_used": `. -/
lemma scanChunkB (cur : List Char) (acc : List String) :
    scanList ⟨1, false, cur, none, acc⟩
        ((",\n  \"session_5h\": \x7b\n    \"pct_used\": ").data) =
      ⟨2, false, ['d', 'e', 's', 'u', '_', 't', 'c', 'p'], none,
        ("session_5h") :: acc⟩ := by
  simp [scanList, scanStep, scanStepCore, String.mk]

/-- Heredoc segment opening a `resets` value string at depth 2. -/
lemma scanChunkC (cur : List Char) (acc : List String) :
    scanList ⟨2, false, cur, none, acc⟩ ((",\n    \"resets\": \"").data) =
      ⟨2, true, [], none, acc⟩ := by
  simp [scanList, scanStep, scanStepCore, String.mk]

/-- Heredoc segment from the session `resets` value through the
`week_all_models` bucket's `"pct_used": `. -/
lemma scanChunkD (cur : List Char) (acc : List String) :
    scanList ⟨2, true, cur, none, acc⟩
        (("\"\n  \x7d,\n  \"week_all_models\": \x7b\n    \"pct_used\": ").data) =
      ⟨2, false, ['d', 'e', 's', 'u', '_', 't', 'c', 'p'], none,
        ("week_all_models") :: acc⟩ := by
  simp [scanList, scanStep, scanStepCore, String.mk]

/-- Heredoc segment from the weekly `resets` value through
`"week_opus": `. -/
lemma scanChunkF (cur : List Char) (acc : List String) :
    scanList ⟨2, true, cur, none, acc⟩
        (("\"\n  \x7d,\n  \"week_opus\": ").data) =
      ⟨1, false, ['s', 'u', 'p', 'o', '_', 'k', 'e', 'e', 'w'], none,
        ("week_opus") :: acc⟩ := by
  simp [scanList, scanStep, scanStepCore, String.mk]

/-- Heredoc epilogue: close the top-level object. -/
lemma scanChunkG (cur : List Char) (acc : List String) :
    scanList ⟨1, false, cur, none, acc⟩ (("\n\x7d").data) =
      ⟨0, false, cur, none, acc⟩ := by
  simp [scanList, scanStep, scanStepCore]

/-- `status_json` prologue through the opening of the `version` value. -/
lemma scanChunkS1 (cur : List Char) (acc : List String) :
    scanList ⟨1, false, cur, none, acc⟩ (("\x7b\"version\": \"").data) =
      ⟨2, true, [], none, acc⟩ := by
  simp [scanList, scanStep, scanStepCore, String.mk]

/-- `status_json` segment between the `version` and `login_method`
values. -/
lemma scanChunkS2 (cur : List Char) (acc : List String) :
    scanList ⟨2, true, cur, none, acc⟩ (("\", \"login_method\": \"").data) =
      ⟨2, true, [], none, acc⟩ := by
  simp [scanList, scanStep, scanStepCore, String.mk]

/-- `status_json` segment between the `login_method` and `organization`
values. -/
lemma scanChunkS3 (cur : List Char) (acc : List String) :
    scanList ⟨2, true, cur, none, acc⟩ (("\", \"organization\": \"").data) =
      ⟨2, true, [], none, acc⟩ := by
  simp [scanList, scanStep, scanStepCore, String.mk]

/-- `status_json` segment from the `organization` value through
`"mcp_servers": `. -/
lemma scanChunkS4 (cur : List Char) (acc : List String) :
    scanList ⟨2, true, cur, none, acc⟩ (("\", \"mcp_servers\": ").data) =
      ⟨2, false, ['s', 'r', 'e', 'v', 'r', 'e', 's', '_', 'p', 'c', 'm'],
        none, acc⟩ := by
  simp [scanList, scanStep, scanStepCore, String.mk]

/-- `status_json` epilogue: close the status object. -/
lemma scanChunkS5 (cur : List Char) (acc : List String) :
    scanList ⟨2, false, cur, none, acc⟩ (("\x7d").data) =
      ⟨1, false, cur, none, acc⟩ := by
  simp [scanList, scanStep, scanStepCore]

/-- Opus bucket prologue through `"pct_used": `. -/
lemma scanChunkO1 (cur : List Char) (acc : List String) :
    scanList ⟨1, false, cur, none, acc⟩ (("\x7b\"pct_used\": ").data) =
      ⟨2, false, ['d', 'e', 's', 'u', '_', 't', 'c', 'p'], none, acc⟩ := by
  simp [scanList, scanStep, scanStepCore, String.mk]

/-- Opus bucket segment opening its `resets` value string. -/
lemma scanChunkO2 (cur : List Char) (acc : List String) :
    scanList ⟨2, false, cur, none, acc⟩ ((", \"resets\": \"").data) =
      ⟨2, true, [], none, acc⟩ := by
  simp [scanList, scanStep, scanStepCore, String.mk]

/-- Opus bucket epilogue: close the `resets` value and the bucket. -/
lemma scanChunkO3 (cur : List Char) (acc : List String) :
    scanList ⟨2, true, cur, none, acc⟩ (("\"\x7d").data) =
      ⟨1, false, cur, none, acc⟩ := by
  simp [scanList, scanStep, scanStepCore]

/-- The empty `mcp_servers` array is a neutral fragment at depth 2. -/
lemma emptyArray_neutralAt : NeutralAt 2 ("[]") := by
  intro cur acc
  refine ⟨cur, ?_⟩
  simp [scanList, scanStep, scanStepCore]

/-- A one-element quoted `mcp_servers` array, as the script builds it,
is a neutral fragment at depth 2. -/
lemma clickupArray_neutralAt : NeutralAt 2 ("[\"clickup\"]") := by
  intro cur acc
  refine ⟨['p', 'u', 'k', 'c', 'i', 'l', 'c'], ?_⟩
  simp [scanList, scanStep, scanStepCore]

/-- `status_json` (line 406) built from quote-free extracted fields and
a neutral `mcp_servers` fragment is neutral at depth 1: it records no
top-level key. -/
lemma statusJsonText_neutralAt (v l o m : String)
    (hv : v.data.all noQuote = true) (hl : l.data.all noQuote = true)
    (ho : o.data.all noQuote = true) (hm : NeutralAt 2 m) :
    NeutralAt 1 (statusJsonText v l o m) := by
  intro cur acc
  obtain ⟨cm, hcm⟩ :=
    hm ['s', 'r', 'e', 'v', 'r', 'e', 's', '_', 'p', 'c', 'm'] acc
  refine ⟨cm, ?_⟩
  have hdata : (statusJsonText v l o m).data =
      ("\x7b\"version\": \"").data ++ (v.data ++
      ((("\", \"login_method\": \"").data) ++ (l.data ++
      ((("\", \"organization\": \"").data) ++ (o.data ++
      ((("\", \"mcp_servers\": ").data) ++ (m.data ++
      (("\x7d").data)))))))) := by
    simp [statusJsonText]
  rw [hdata]
  simp only [scanList_append]
  rw [scanChunkS1, scanList_inStr v.data 2 [] none acc hv, scanChunkS2,
    scanList_inStr l.data 2 [] none acc hl, scanChunkS3,
    scanList_inStr o.data 2 [] none acc ho, scanChunkS4, hcm, scanChunkS5]

/-- The interpolated Opus bucket (line 443) built from a plain `pct`
fragment and a quote-free `resets` fragment is neutral at depth 1. -/
lemma opusBucketText_neutralAt (p r : String)
    (hp : p.data.all plainChar = true) (hr : r.data.all noQuote = true) :
    NeutralAt 1 (opusBucketText p r) := by
  intro cur acc
  refine ⟨r.data.reverse ++ [], ?_⟩
  have hdata : (opusBucketText p r).data =
      ("\x7b\"pct_used\": ").data ++ (p.data ++
      (((", \"resets\": \"").data) ++ (r.data ++ (("\"\x7d").data)))) := by
    simp [opusBucketText]
  rw [hdata]
  simp only [scanList_append]
  rw [scanChunkO1, scanList_plain p.data 2 _ acc hp, scanChunkO2,
    scanList_inStr r.data 2 [] none acc hr, scanChunkO3]

set_option maxRecDepth 8000 in
/--
C8 (amended): every success output — for arbitrary interpolated values,
provided each fragment is benign (the status components and resets
strings contain no double quote, the pct fragments no quote, brace or
bracket, and `week_opus` is the literal `null` or a bucket interpolated
from such fragments) — is a single JSON document whose top-level fields
are exactly `ok`, `source`, `status`, `session_5h`, `week_all_models`
and `week_opus`, in that order: the declared envelope plus the extra
`source` field (value `tmux-capture`).  Without the benignness
conditions the shape is not guaranteed: a quote-bearing fragment can
inject further top-level fields, and an empty pct fragment makes the
document malformed.
-/
theorem c8_theorem (v l o m sPct sResets wPct wResets wopus : String)
    (hv : v.data.all noQuote = true) (hl : l.data.all noQuote = true)
    (ho : o.data.all noQuote = true) (hm : NeutralAt 2 m)
    (hsp : sPct.data.all plainChar = true)
    (hsr : sResets.data.all noQuote = true)
    (hwp : wPct.data.all plainChar = true)
    (hwr : wResets.data.all noQuote = true)
    (hwo : wopus = ("null") ∨ ∃ p r, wopus = opusBucketText p r ∧
      p.data.all plainChar = true ∧ r.data.all noQuote = true) :
    topLevelKeys (successJsonText (statusJsonText v l o m) sPct sResets
        wPct wResets wopus) =
      [("ok"), ("source"), ("status"), ("session_5h"), ("week_all_models"),
       ("week_opus")] := by
  have hop : NeutralAt 1 wopus := by
    rcases hwo with hnull | ⟨p, r, hb, hp, hr⟩
    · rw [hnull]; exact null_neutralAt
    · rw [hb]; exact opusBucketText_neutralAt p r hp hr
  obtain ⟨cS, hcS⟩ := statusJsonText_neutralAt v l o m hv hl ho hm
    ['s', 'u', 't', 'a', 't', 's'] [("status"), ("source"), ("ok")]
  obtain ⟨cW, hcW⟩ := hop ['s', 'u', 'p', 'o', '_', 'k', 'e', 'e', 'w']
    (("week_opus") :: ("week_all_models") :: ("session_5h") :: ("status") ::
      ("source") :: ("ok") :: [])
  show (scanList scanInit _).acc.reverse = _
  have hdata : (successJsonText (statusJsonText v l o m) sPct sResets wPct
      wResets wopus).data =
      ("\x7b\n  \"ok\": true,\n  \"source\": \"tmux-capture\",\n  \"status\": ").data ++
      ((statusJsonText v l o m).data ++
      (((",\n  \"session_5h\": \x7b\n    \"pct_used\": ").data) ++
      (sPct.data ++
      (((",\n    \"resets\": \"").data) ++ (sResets.data ++
      ((("\"\n  \x7d,\n  \"week_all_models\": \x7b\n    \"pct_used\": ").data) ++
      (wPct.data ++
      (((",\n    \"resets\": \"").data) ++ (wResets.data ++
      ((("\"\n  \x7d,\n  \"week_opus\": ").data) ++
      (wopus.data ++ (("\n\x7d").data)))))))))))) := by
    simp [successJsonText]
  rw [hdata]
  simp only [scanList_append]
  rw [scanChunkA, hcS, scanChunkB, scanList_plain sPct.data 2 _ _ hsp,
    scanChunkC, scanList_inStr sResets.data 2 [] none _ hsr, scanChunkD,
    scanList_plain wPct.data 2 _ _ hwp, scanChunkC,
    scanList_inStr wResets.data 2 [] none _ hwr, scanChunkF, hcW,
    scanChunkG]
  rfl

set_option maxRecDepth 8000 in
/-- Witness for C8 at concrete benign fragments, exercising both the
`null` and the bucket form of `week_opus`. -/
theorem c8_witness :
    topLevelKeys (successJsonText
        (statusJsonText ("2.0.26") ("Claude account") ("N/A")
          ("[\"clickup\"]"))
        ("42") ("3h 12m") ("10") ("Oct 6") ("null")) =
      [("ok"), ("source"), ("status"), ("session_5h"), ("week_all_models"),
       ("week_opus")] ∧
    topLevelKeys (successJsonText
        (statusJsonText ("2.0.26") ("Claude account") ("N/A")
          ("[\"clickup\"]"))
        ("42") ("3h 12m") ("10") ("Oct 6")
        (opusBucketText ("5") ("Oct 8"))) =
      [("ok"), ("source"), ("status"), ("session_5h"), ("week_all_models"),
       ("week_opus")] := by
  constructor
  · exact c8_theorem ("2.0.26") ("Claude account") ("N/A") ("[\"clickup\"]")
      ("42") ("3h 12m") ("10") ("Oct 6") ("null")
      (by decide) (by decide) (by decide) clickupArray_neutralAt
      (by decide) (by decide) (by decide) (by decide) (Or.inl rfl)
  · exact c8_theorem ("2.0.26") ("Claude account") ("N/A") ("[\"clickup\"]")
      ("42") ("3h 12m") ("10") ("Oct 6") (opusBucketText ("5") ("Oct 8"))
      (by decide) (by decide) (by decide) clickupArray_neutralAt
      (by decide) (by decide) (by decide) (by decide)
      (Or.inr ⟨("5"), ("Oct 8"), rfl, by decide, by decide⟩)

set_option maxRecDepth 8000 in
/--
C8 counterexample: a concrete success document contains the top-level
field `source`, which is not among the five fields the claim says are
the only ones present.
-/
theorem c8_counterexample :
    ("source") ∈ topLevelKeys (successJsonText exStatusText ("42") ("3h 12m")
      ("10") ("Oct 6") ("null")) ∧
    ("source") ∉ [("ok"), ("status"), ("session_5h"), ("week_all_models"),
      ("week_opus")] := by decide

/-! ### C10 -/

set_option maxRecDepth 8000 in
/--
C10: for every percentage `0 ≤ p ≤ 100`, `createProgressBar` returns a
string of exactly 20 bar characters — `Math.round(p/100*20)` filled dots
followed by the remaining empty dots — and for every `p > 102.5`
(equivalently `205 < 2p`) the computed empty-bar count
`20 - Math.round(p/100*20)` is negative, so the `String.repeat` call
throws and the function is total only under the 0-100 precondition.
-/
theorem c10_theorem (p : ℚ) :
    (0 ≤ p → p ≤ 100 →
      ∃ s, createProgressBar p = some s ∧ s.length = 20 ∧
        s.data =
          List.replicate (jsRound (p / 100 * 20)).toNat ('●') ++
          List.replicate (20 - (jsRound (p / 100 * 20)).toNat) ('○')) ∧
    (205 < 2 * p → createProgressBar p = none) := by
  have hq : p / 100 * (20 : ℚ) = p / 5 := by ring
  constructor
  · intro h0 h1
    have hf0 : 0 ≤ jsRound (p / 100 * 20) := by
      rw [jsRound_eq]
      apply Int.floor_nonneg.2
      rw [hq]
      have : (0:ℚ) ≤ p / 5 := by positivity
      linarith
    have hf1 : jsRound (p / 100 * 20) ≤ 20 := by
      rw [jsRound_eq]
      have hx1 : p / 5 ≤ 20 := by linarith
      have hlt : (p / 100 * 20 + 1 / 2 : ℚ) < 21 := by rw [hq]; linarith
      have hfl : Int.floor (p / 100 * 20 + 1 / 2 : ℚ) < 21 :=
        Int.floor_lt.2 (by exact_mod_cast hlt)
      omega
    have e1 : repeatChar ('●') (jsRound (p / 100 * 20)) =
        some (String.mk (List.replicate (jsRound (p / 100 * 20)).toNat
          ('●'))) := by
      rw [repeatChar, if_neg (by omega)]
    have e2 : repeatChar ('○') (20 - jsRound (p / 100 * 20)) =
        some (String.mk (List.replicate (20 - jsRound (p / 100 * 20)).toNat
          ('○'))) := by
      rw [repeatChar, if_neg (by omega)]
    have hcb : createProgressBar p =
        some (String.mk (List.replicate (jsRound (p / 100 * 20)).toNat
            ('●')) ++
          String.mk (List.replicate (20 - jsRound (p / 100 * 20)).toNat
            ('○'))) := by
      simp only [createProgressBar, e1, e2, Option.bind_eq_bind,
        Option.some_bind, Option.pure_def]
    have hcnt : (20 - jsRound (p / 100 * 20)).toNat =
        20 - (jsRound (p / 100 * 20)).toNat := by omega
    refine ⟨_, hcb, ?_, ?_⟩
    · rw [String.length_append]
      show (List.replicate (jsRound (p / 100 * 20)).toNat ('●')).length +
          (List.replicate (20 - jsRound (p / 100 * 20)).toNat
            ('○')).length = 20
      simp only [List.length_replicate]
      omega
    · show List.replicate (jsRound (p / 100 * 20)).toNat ('●') ++
          List.replicate (20 - jsRound (p / 100 * 20)).toNat ('○') =
          List.replicate (jsRound (p / 100 * 20)).toNat ('●') ++
          List.replicate (20 - (jsRound (p / 100 * 20)).toNat) ('○')
      rw [hcnt]
  · intro hgt
    have hf : 21 ≤ jsRound (p / 100 * 20) := by
      rw [jsRound_eq]
      apply Int.le_floor.2
      rw [hq]
      push_cast
      linarith
    have e1 : repeatChar ('●') (jsRound (p / 100 * 20)) =
        some (String.mk (List.replicate (jsRound (p / 100 * 20)).toNat
          ('●'))) := by
      rw [repeatChar, if_neg (by omega)]
    have e2 : repeatChar ('○') (20 - jsRound (p / 100 * 20)) = none := by
      rw [repeatChar, if_pos (by omega)]
    simp only [createProgressBar, e1, e2, Option.bind_eq_bind,
      Option.some_bind, Option.none_bind, Option.pure_def]

/-- Witness for C10 at `p = 50` (in range) and `p = 103` (throwing). -/
theorem c10_witness :
    (0:ℚ) ≤ 50 ∧ (50:ℚ) ≤ 100 ∧
    (∃ s, createProgressBar 50 = some s ∧ s.length = 20) ∧
    205 < 2 * (103:ℚ) ∧ createProgressBar 103 = none := by
  refine ⟨by norm_num, by norm_num, ?_, by norm_num, ?_⟩
  · obtain ⟨s, hs, hlen, _⟩ := (c10_theorem 50).1 (by norm_num) (by norm_num)
    exact ⟨s, hs, hlen⟩
  · exact (c10_theorem 103).2 (by norm_num)
